import Mathlib

/-! Shallow embedding of the portfolio-backend media-upload gateway
    (src/index.js): the JS string operations the handlers use, the multer
    upload pipeline (fileFilter, size limit, maxCount, error mapping), the
    Supabase-backed storage routes, and the account and token services. -/

/-- JS strings are modelled as lists of characters. -/
abbrev JStr := List Char

/-- Boolean test that p is a prefix of s (the JS String.startsWith). -/
def lstartsWith : JStr → JStr → Bool
  | [], _ => true
  | _ :: _, [] => false
  | p :: ps, c :: cs => p == c && lstartsWith ps cs

/-- Boolean test that n occurs as a contiguous substring of h. This is the
    meaning of a JS regex test whose pattern is a literal alternation token,
    and of JS String.includes. -/
def containsSub (n : JStr) : JStr → Bool
  | [] => n.isEmpty
  | c :: rest => lstartsWith n (c :: rest) || containsSub n rest

/-- JS s.split(sep): splits on every occurrence of the separator, keeping
    empty segments; the empty string splits to one empty segment, so the
    result is never the empty list. -/
def jsSplit (sep : Char) : JStr → List JStr
  | [] => [[]]
  | c :: rest =>
    if c == sep then [] :: jsSplit sep rest
    else
      match jsSplit sep rest with
      | [] => [[c]]
      | seg :: segs => (c :: seg) :: segs

/-- JS s.split(sep)[0]: the segment before the first separator. -/
def firstSegOn (sep : Char) (s : JStr) : JStr := (jsSplit sep s).headD []

/-- JS name.split(".")[0], used by the images route as the id of a key. -/
def firstSeg (s : JStr) : JStr := firstSegOn '.' s

/-- JS name.split(".").pop(): the final dot-segment of a name. -/
def lastSeg (s : JStr) : JStr := (jsSplit '.' s).getLastD []

/-- JS s.toLowerCase, character by character. -/
def toLowerStr (s : JStr) : JStr := s.map Char.toLower

/-- Boolean test that p is a suffix of s (JS regex anchored at the end). -/
def lendsWith (p s : JStr) : Bool := lstartsWith p.reverse s.reverse

/-- JS truthiness of a possibly absent string field: undefined and the
    empty string are falsy. -/
def jsTruthy : Option JStr → Bool
  | none => false
  | some s => !s.isEmpty

/-- A multipart file as multer presents it to the handlers. -/
structure UploadedFile where
  originalname : JStr
  mimetype : JStr
  size : Nat
  bytes : List Nat
deriving DecidableEq

/-- The five alternatives of the regex jpeg|jpg|png|gif|webp. -/
def allowedTokens : List JStr :=
  ["jpeg".toList, "jpg".toList, "png".toList, "gif".toList, "webp".toList]

/-- The JS test allowed.test(s) for the regex jpeg|jpg|png|gif|webp: true
    when any of the five tokens occurs as a substring of s. -/
def allowedTest (s : JStr) : Bool :=
  containsSub "jpeg".toList s || containsSub "jpg".toList s ||
  containsSub "png".toList s || containsSub "gif".toList s ||
  containsSub "webp".toList s

/-- The multer fileFilter of src/index.js: tests the lowercased final
    dot-segment of the original name and the declared mimetype against the
    regex jpeg|jpg|png|gif|webp. -/
def fileFilter (f : UploadedFile) : Bool :=
  allowedTest (toLowerStr (lastSeg f.originalname)) && allowedTest f.mimetype

/-- A JS error value as handleUploadError inspects it: whether it is a
    multer error, its multer code, and its message. -/
structure JsError where
  isMulterError : Bool
  code : JStr
  message : JStr
deriving DecidableEq

/-- The error the fileFilter callback passes on rejection. -/
def onlyImagesError : JsError :=
  ⟨false, [], "Only image files are allowed".toList⟩

/-- The multer error raised when a file exceeds the fileSize limit. -/
def fileSizeError : JsError :=
  ⟨true, "LIMIT_FILE_SIZE".toList, "File too large".toList⟩

/-- The multer error raised when the array field exceeds maxCount files. -/
def unexpectedFileError : JsError :=
  ⟨true, "LIMIT_UNEXPECTED_FILE".toList, "Unexpected field".toList⟩

/-- The multer limits fileSize value: 10 * 1024 * 1024 bytes. -/
def fileSizeLimit : Nat := 10 * 1024 * 1024

/-- Multer processing of one incoming file: the fileFilter sees the file
    metadata first; only an accepted file is buffered, so the size limit
    fires after the filter. -/
def multerProcessFile (f : UploadedFile) : Option JsError :=
  if fileFilter f = false then some onlyImagesError
  else if fileSizeLimit < f.size then some fileSizeError
  else none

/-- Multer processing of an array field, file by file in arrival order:
    a file beyond maxCount aborts with unexpectedFileError before its
    filter runs; otherwise the first per-file error aborts. -/
def multerArrayGo (maxCount : Nat) : Nat → List UploadedFile → Option JsError
  | _, [] => none
  | accepted, f :: rest =>
    if maxCount ≤ accepted then some unexpectedFileError
    else
      match multerProcessFile f with
      | some e => some e
      | none => multerArrayGo maxCount (accepted + 1) rest

/-- Multer upload.array processing starting from zero accepted files. -/
def multerArray (maxCount : Nat) (files : List UploadedFile) : Option JsError :=
  multerArrayGo maxCount 0 files

/-- An error response: HTTP status plus the error message of the JSON body. -/
structure ErrResp where
  status : Nat
  error : JStr
deriving DecidableEq

/-- The handleUploadError function of src/index.js: a multer
    LIMIT_FILE_SIZE error maps to 400 with the size message, an error whose
    message includes the fileFilter text maps to 400 with that message, and
    every other error maps to the generic 500 response. The source declares
    it with three parameters (err, req, res), so Express never dispatches
    an error to it; see dispatchUploadError. -/
def handleUploadError (err : JsError) : ErrResp :=
  if err.isMulterError && err.code == "LIMIT_FILE_SIZE".toList then
    ⟨400, "File too large. Max 10MB.".toList⟩
  else if containsSub "Only image files".toList err.message then
    ⟨400, err.message⟩
  else
    ⟨500, "Upload failed".toList⟩

/-- The sixteen lowercase hexadecimal digit characters. -/
def hexChars : List Char := "0123456789abcdef".toList

/-- The hexadecimal digit character for a value, reduced modulo 16. -/
def hexDigit (n : Nat) : Char := hexChars.getD (n % 16) '0'

/-- Two lowercase hexadecimal digits of a byte value. -/
def byteHex (b : Nat) : JStr := [hexDigit (b / 16), hexDigit b]

/-- Modelled from the spec: crypto.randomUUID of the Node runtime (not part
    of src/) formats sixteen random bytes as an RFC 4122 version-4 UUID
    string, 8-4-4-4-12 lowercase hex groups joined by hyphens, with the
    version and variant nibbles fixed. -/
def uuidFromBytes (b : Fin 16 → Nat) : JStr :=
  byteHex (b 0) ++ byteHex (b 1) ++ byteHex (b 2) ++ byteHex (b 3) ++ ['-'] ++
  byteHex (b 4) ++ byteHex (b 5) ++ ['-'] ++
  byteHex (64 + b 6 % 16) ++ byteHex (b 7) ++ ['-'] ++
  byteHex (128 + b 8 % 64) ++ byteHex (b 9) ++ ['-'] ++
  byteHex (b 10) ++ byteHex (b 11) ++ byteHex (b 12) ++ byteHex (b 13) ++
  byteHex (b 14) ++ byteHex (b 15)

/-- The storage key built by uploadToSupabase: id, a dot, then the final
    dot-segment of the original filename. -/
def makeFilename (id originalname : JStr) : JStr :=
  id ++ ['.'] ++ lastSeg originalname

/-- An object held by the storage backend: key, bytes and content type. -/
structure StoredObj where
  name : JStr
  bytes : List Nat
  contentType : JStr
deriving DecidableEq

/-- The uploads bucket of the storage backend. -/
abbrev Storage := List StoredObj

/-- Modelled from the spec: the storage backend upload with upsert false
    (the supabase-js client is not part of src/) refuses to overwrite an
    existing key and otherwise stores the object. -/
def supabasePut (st : Storage) (o : StoredObj) : Option Storage :=
  if st.any (fun e => e.name == o.name) then none else some (o :: st)

/-- Modelled from the spec: getPublicUrl of the storage backend derives a
    stable public address for a key without a storage round-trip. -/
def publicUrl (fn : JStr) : JStr :=
  "https://supabase.example/storage/v1/object/public/uploads/".toList ++ fn

/-- The value uploadToSupabase resolves with. -/
structure UploadResult where
  id : JStr
  filename : JStr
  url : JStr
  size : Nat
  mimetype : JStr
deriving DecidableEq

/-- The uploadToSupabase helper of src/index.js: builds the key from the
    random id and the final dot-segment of the original name, uploads with
    upsert false, and returns id, key, public url, size and mimetype. The
    random id is passed in explicitly. The route handlers that would call
    it are unreachable, so no object is ever persisted through the upload
    routes. -/
def uploadToSupabase (st : Storage) (id : JStr) (f : UploadedFile) :
    Option (UploadResult × Storage) :=
  match supabasePut st ⟨makeFilename id f.originalname, f.bytes, f.mimetype⟩ with
  | none => none
  | some st' =>
    some (⟨id, makeFilename id f.originalname,
           publicUrl (makeFilename id f.originalname), f.size, f.mimetype⟩, st')

/-- The url selection in the body of the upload handlers: BASE_URL truthy
    gives the gateway address BASE_URL/file/filename, otherwise the public
    url of the storage backend. The handlers are unreachable (see
    uploadRoute), so this value never reaches a client. -/
def chooseUrl (baseUrl : Option JStr) (filename url : JStr) : JStr :=
  match baseUrl with
  | some b => if b.isEmpty then url else b ++ "/file/".toList ++ filename
  | none => url

/-- The response of POST /upload; the ok shape is the response the route
    handler would build, and the wiring makes it unreachable. -/
inductive SingleResp where
  | err (status : Nat) (error : JStr)
  | ok (message : JStr) (id : JStr) (filename : JStr) (url : JStr)
       (size : Nat) (mimetype : JStr)
deriving DecidableEq

/-- Arity of the handleUploadError declaration of src/index.js: three
    parameters (err, req, res), with no fourth next parameter. -/
def handleUploadErrorArity : Nat := 3

/-- Express treats a middleware function as an error handler exactly when
    it declares four parameters; any other arity is regular middleware and
    is skipped when an error is being dispatched. -/
def isErrorMiddleware (arity : Nat) : Bool := arity == 4

/-- The response of the Express default error handler, reached when no
    four-parameter error middleware is mounted on the route: status 500,
    with a body that is a stack trace in development and the phrase
    Internal Server Error in production; the production phrase models it. -/
def expressDefault500 : ErrResp := ⟨500, "Internal Server Error".toList⟩

/-- Dispatch of a multer error on the upload routes: Express consults the
    handleUploadError layer only if it declares four parameters; with its
    actual three parameters the error skips it, no other error middleware
    exists, and the default handler answers whatever the error was. -/
def dispatchUploadError (e : JsError) : ErrResp :=
  if isErrorMiddleware handleUploadErrorArity then handleUploadError e
  else expressDefault500

/-- The outcome of Express running the three-parameter handleUploadError
    as regular middleware on a request multer accepted: its first
    parameter is bound to the request object, whose message field is
    undefined, so err.message.includes throws a TypeError and the default
    handler answers; the route handler mounted after it never runs. -/
def handleUploadErrorAsRegular : ErrResp := expressDefault500

/-- The POST /upload route as Express dispatches it: a multer error skips
    the three-parameter handleUploadError and falls through to the default
    500; an accepted request, with or without a file, reaches
    handleUploadError as regular middleware, which throws, so the default
    500 answers there too; the handler that would map a missing file to
    400, store the file and build the ok response never runs, and storage
    is never touched. -/
def uploadRoute (_baseUrl : Option JStr) (st : Storage) (_id : JStr)
    (f : Option UploadedFile) : SingleResp × Storage :=
  match f with
  | none =>
    (.err handleUploadErrorAsRegular.status handleUploadErrorAsRegular.error, st)
  | some file =>
    match multerProcessFile file with
    | some e =>
      (.err (dispatchUploadError e).status (dispatchUploadError e).error, st)
    | none =>
      (.err handleUploadErrorAsRegular.status handleUploadErrorAsRegular.error, st)

/-- One entry of the files list of the batch upload response. -/
structure BatchEntry where
  id : JStr
  filename : JStr
  url : JStr
deriving DecidableEq

/-- The response of POST /upload-multiple; the ok shape is the response
    the route handler would build, and the wiring makes it unreachable. -/
inductive MultiResp where
  | err (status : Nat) (error : JStr)
  | ok (message : JStr) (files : List BatchEntry)
deriving DecidableEq

/-- The POST /upload-multiple route as Express dispatches it: a multer
    error, be it a rejected type, an oversized file or more than ten
    files, skips the three-parameter handleUploadError and falls through
    to the default 500; an accepted batch reaches handleUploadError as
    regular middleware, which throws, so the default 500 answers there
    too; the handler that would run the joined uploadToSupabase calls
    never executes and storage is never touched. -/
def uploadMultipleRoute (_baseUrl : Option JStr) (st : Storage)
    (_ids : List JStr) (files : List UploadedFile) : MultiResp × Storage :=
  match multerArray 10 files with
  | some e =>
    (.err (dispatchUploadError e).status (dispatchUploadError e).error, st)
  | none =>
    (.err handleUploadErrorAsRegular.status handleUploadErrorAsRegular.error, st)

/-- The images-route filter regex on a key, ending in a dot and one of the
    image extensions, case-insensitively. -/
def imageNameTest (nm : JStr) : Bool :=
  lendsWith ".jpeg".toList (toLowerStr nm) || lendsWith ".jpg".toList (toLowerStr nm) ||
  lendsWith ".png".toList (toLowerStr nm) || lendsWith ".gif".toList (toLowerStr nm) ||
  lendsWith ".webp".toList (toLowerStr nm)

/-- The GET /images route: lists at most 100 backend entries, keeps the
    image-extension keys, and maps each to its id (the segment before the
    first dot), the key, and the public url. -/
def imagesRoute (st : Storage) : List BatchEntry :=
  ((st.take 100).filter (fun o => imageNameTest o.name)).map
    (fun o => ⟨firstSeg o.name, o.name, publicUrl o.name⟩)

/-- Modelled from the spec: the storage backend list with a search term
    (the supabase-js client is not part of src/) returns the entries whose
    name contains the term, capped at the default limit of 100. -/
def supabaseSearchList (st : Storage) (q : JStr) : List StoredObj :=
  (st.filter (fun o => containsSub q o.name)).take 100

/-- The DELETE /images/:id route: searches the backend for the id, picks
    the first entry whose key starts with the id followed by a dot, answers
    404 deleting nothing when none matches, and otherwise removes exactly
    that key and reports it. -/
def deleteRoute (st : Storage) (id : JStr) : Option JStr × Storage :=
  match (supabaseSearchList st id).find? (fun o => lstartsWith (id ++ ['.']) o.name) with
  | none => (none, st)
  | some o => (some o.name, st.filter (fun e => !(e.name == o.name)))

/-- The response of GET /file/:filename: the headers the route sets and
    the body bytes, or the 404 error. -/
inductive FileResp where
  | notFound (status : Nat) (error : JStr)
  | ok (contentType : JStr) (cacheControl : Option JStr) (body : List Nat)
deriving DecidableEq

/-- The GET /file/:filename route: downloads the object by key, answers
    404 when absent, and otherwise sends the bytes with the Content-Type
    header set to image/jpeg and no cache header. -/
def fileRoute (st : Storage) (filename : JStr) : FileResp :=
  match st.find? (fun o => o.name == filename) with
  | none => .notFound 404 "File not found".toList
  | some o => .ok "image/jpeg".toList none o.bytes

/-- A row of the users table, with the nullable password column holding
    the stored bcrypt hash. -/
structure UserRow where
  id : Nat
  username : JStr
  full_name : JStr
  email : JStr
  role : JStr
  password : Option JStr
deriving DecidableEq

/-- The users table of the account datastore. -/
abbrev UsersTable := List UserRow

/-- The response of POST /register: an error, or 201 with the created row
    as the select() call returns it, every column included. -/
inductive RegisterResp where
  | err (status : Nat) (error : JStr)
  | created (status : Nat) (message : JStr) (user : UserRow)
deriving DecidableEq

/-- The role assignment of the register handler: a role in the allow-list
    is kept, any other value, the empty string or an absent field defaults
    to user. -/
def assignRole (role : Option JStr) : JStr :=
  match role with
  | some r =>
    if r == "user".toList || r == "admin".toList || r == "moderator".toList
    then r else "user".toList
  | none => "user".toList

/-- The POST /register handler of src/index.js: requires truthy email and
    password, answers 409 when the email already exists, hashes the
    password, inserts the row with defaulted username, full name and role,
    and answers 201 with the inserted row. The bcrypt hash function and the
    id the datastore assigns are passed in explicitly. -/
def register (db : UsersTable) (bcryptHash : JStr → JStr) (newId : Nat)
    (email username full_name role password : Option JStr) :
    RegisterResp × UsersTable :=
  if !(jsTruthy email && jsTruthy password) then
    (.err 400 "Email and password required".toList, db)
  else
    match db.find? (fun u => u.email == email.getD []) with
    | some _ => (.err 409 "Email already exists".toList, db)
    | none =>
      (.created 201 "User created".toList
        { id := newId
          username := if jsTruthy username then username.getD []
                      else firstSegOn '@' (email.getD [])
          full_name := if jsTruthy full_name then full_name.getD [] else []
          email := email.getD []
          role := assignRole role
          password := some (bcryptHash (password.getD [])) },
       db ++
        [{ id := newId
           username := if jsTruthy username then username.getD []
                       else firstSegOn '@' (email.getD [])
           full_name := if jsTruthy full_name then full_name.getD [] else []
           email := email.getD []
           role := assignRole role
           password := some (bcryptHash (password.getD [])) }])

/-- Modelled from the spec: a token of the jsonwebtoken library (not part
    of src/) is either a well-formed signed token carrying the subject id,
    the issue time, the expiry and the secret it was signed with, or a
    malformed token. -/
inductive Jwt where
  | signed (userId : Nat) (iat : Nat) (exp : Nat) (secret : JStr)
  | malformed
deriving DecidableEq

/-- Modelled from the spec: jwt.sign with expiresIn one hour embeds the
    subject id and an expiry 3600 seconds from issuance, under the
    server-held secret. -/
def jwtSign (secret : JStr) (userId : Nat) (now : Nat) : Jwt :=
  .signed userId now (now + 3600) secret

/-- Modelled from the spec: jwt.verify rejects a malformed token, a token
    whose signature does not validate under the given secret, and a token
    whose expiry has been reached; otherwise it yields the embedded
    subject id. -/
def jwtVerify (secret : JStr) (now : Nat) : Jwt → Option Nat
  | .signed uid _ exp s =>
    if s == secret then (if exp ≤ now then none else some uid) else none
  | .malformed => none

/-- The response of POST /login: status, message, and the issued token on
    success. -/
structure LoginResp where
  status : Nat
  message : JStr
  token : Option Jwt
deriving DecidableEq

/-- The POST /login handler of src/index.js: requires truthy email and
    password, answers 401 with the uniform message when no row matches the
    email, answers 500 with a dedicated message when the stored password
    column is null or empty, answers the same uniform 401 when the bcrypt
    comparison fails, and otherwise signs a one-hour token bound to the
    row id. The bcrypt comparison and the clock are passed in explicitly. -/
def login (db : UsersTable) (bcryptCompare : JStr → JStr → Bool)
    (secret : JStr) (now : Nat) (email password : Option JStr) : LoginResp :=
  if !(jsTruthy email && jsTruthy password) then
    ⟨400, "Email and password are required".toList, none⟩
  else
    match db.find? (fun u => u.email == email.getD []) with
    | none => ⟨401, "Invalid email or password".toList, none⟩
    | some u =>
      match u.password with
      | none => ⟨500, "Password not set correctly for this user.".toList, none⟩
      | some h =>
        if h.isEmpty then
          ⟨500, "Password not set correctly for this user.".toList, none⟩
        else if bcryptCompare (password.getD []) h then
          ⟨200, [], some (jwtSign secret u.id now)⟩
        else ⟨401, "Invalid email or password".toList, none⟩

/-- A file whose extension apng is outside the allowed set but contains
    png as a substring. -/
def apngFile : UploadedFile := ⟨"a.apng".toList, "image/png".toList, 3, [7]⟩

/-- A plain text file rejected by the validator. -/
def txtFile : UploadedFile := ⟨"a.txt".toList, "text/plain".toList, 3, []⟩

/-- An oversized file of a valid image type. -/
def bigPng : UploadedFile := ⟨"a.png".toList, "image/png".toList, 10485761, []⟩

/-- Stand-in bcrypt hash used to evaluate the register handler. -/
def demoHash (s : JStr) : JStr := "HH".toList ++ s

/-- The row the register handler inserts in the witness scenario. -/
def demoRow : UserRow :=
  ⟨1, "a".toList, [], "a@x.com".toList, "user".toList, some "HHp".toList⟩

/-- A stored png object used to evaluate the file-serving route. -/
def pngObj : StoredObj := ⟨"ab.png".toList, [9, 9], "image/png".toList⟩

/-- A user row whose stored password column is null. -/
def noHashUser : UserRow :=
  ⟨1, "u".toList, [], "a@x.com".toList, "user".toList, none⟩

/-- A user row with a usable stored hash. -/
def hashUser : UserRow :=
  ⟨2, "b".toList, [], "b@x.com".toList, "user".toList, some "HHq".toList⟩

/-- A small valid png upload used in witness scenarios. -/
def smallPng : UploadedFile := ⟨"a.png".toList, "image/png".toList, 3, [7]⟩

/-- A stored object carrying the short id ab. -/
def objA : StoredObj := ⟨"ab.png".toList, [], "image/png".toList⟩

/-- A stored object carrying the short id cd. -/
def objB : StoredObj := ⟨"cd.jpg".toList, [1], "image/jpeg".toList⟩

theorem lstartsWith_iff (p s : JStr) : lstartsWith p s = true ↔ ∃ t, s = p ++ t := by
  induction p generalizing s with
  | nil => exact ⟨fun _ => ⟨s, rfl⟩, fun _ => rfl⟩
  | cons a as ih =>
    cases s with
    | nil => simp [lstartsWith]
    | cons b bs =>
      simp only [lstartsWith, Bool.and_eq_true, beq_iff_eq, List.cons_append]
      constructor
      · rintro ⟨rfl, h⟩
        obtain ⟨t, rfl⟩ := (ih bs).1 h
        exact ⟨t, rfl⟩
      · rintro ⟨t, h⟩
        injection h with h1 h2
        exact ⟨h1.symm, (ih bs).2 ⟨t, h2⟩⟩

theorem containsSub_iff (n h : JStr) :
    containsSub n h = true ↔ ∃ pre post, h = pre ++ n ++ post := by
  induction h with
  | nil =>
    cases n with
    | nil => exact ⟨fun _ => ⟨[], [], rfl⟩, fun _ => rfl⟩
    | cons c cs =>
      simp only [containsSub, List.isEmpty_cons]
      constructor
      · intro hh; cases hh
      · rintro ⟨pre, post, hh⟩
        exact absurd hh.symm (by simp)
  | cons c rest ih =>
    simp only [containsSub, Bool.or_eq_true]
    constructor
    · rintro (hpre | hrec)
      · obtain ⟨t, ht⟩ := (lstartsWith_iff n (c :: rest)).1 hpre
        exact ⟨[], t, by simpa using ht⟩
      · obtain ⟨pre, post, hh⟩ := ih.1 hrec
        exact ⟨c :: pre, post, by simp [hh]⟩
    · rintro ⟨pre, post, hh⟩
      cases pre with
      | nil =>
        left
        exact (lstartsWith_iff n (c :: rest)).2 ⟨post, by simpa using hh⟩
      | cons p pre' =>
        right
        injection hh with h1 h2
        exact ih.2 ⟨pre', post, by simpa using h2⟩

theorem containsSub_of_lstartsWith (n s : JStr) (h : lstartsWith n s = true) :
    containsSub n s = true := by
  obtain ⟨t, rfl⟩ := (lstartsWith_iff n s).1 h
  exact (containsSub_iff n _).2 ⟨[], t, by simp⟩

theorem allowedTest_iff (s : JStr) :
    allowedTest s = true ↔ ∃ t ∈ allowedTokens, ∃ pre post, s = pre ++ t ++ post := by
  simp only [allowedTest, allowedTokens, Bool.or_eq_true, or_assoc, containsSub_iff,
    List.mem_cons, List.not_mem_nil, or_false, exists_eq_or_imp, exists_eq_left]

theorem jsSplit_ne_nil (sep : Char) (s : JStr) : jsSplit sep s ≠ [] := by
  cases s with
  | nil => simp [jsSplit]
  | cons c rest =>
    simp only [jsSplit]
    split
    · simp
    · split <;> simp

theorem jsSplit_append_sep (sep : Char) (id rest : JStr) (h : sep ∉ id) :
    jsSplit sep (id ++ sep :: rest) = id :: jsSplit sep rest := by
  induction id with
  | nil => simp [jsSplit]
  | cons c id' ih =>
    have hsep : sep ∉ id' := fun hm => h (List.mem_cons_of_mem _ hm)
    have hc : (c == sep) = false := by
      apply beq_eq_false_iff_ne.mpr
      intro hcc
      exact h (hcc ▸ List.mem_cons_self c id')
    rw [List.cons_append]
    show jsSplit sep (c :: (id' ++ sep :: rest)) = (c :: id') :: jsSplit sep rest
    simp only [jsSplit, hc, Bool.false_eq_true, if_false, ih hsep]

theorem firstSegOn_append_sep (sep : Char) (id rest : JStr) (h : sep ∉ id) :
    firstSegOn sep (id ++ sep :: rest) = id := by
  simp [firstSegOn, jsSplit_append_sep sep id rest h]

theorem hexDigit_ne_dot (n : Nat) : hexDigit n ≠ '.' := by
  have h : n % 16 < 16 := Nat.mod_lt _ (by decide)
  unfold hexDigit
  generalize n % 16 = m at h
  interval_cases m <;> decide

theorem dot_not_mem_byteHex (b : Nat) : '.' ∉ byteHex b := by
  simp only [byteHex, List.mem_cons, List.not_mem_nil, or_false]
  push_neg
  exact ⟨Ne.symm (hexDigit_ne_dot _), Ne.symm (hexDigit_ne_dot _)⟩

theorem dot_not_mem_uuid (b : Fin 16 → Nat) : '.' ∉ uuidFromBytes b := by
  simp [uuidFromBytes, List.mem_append, dot_not_mem_byteHex]

theorem uuid_length (b : Fin 16 → Nat) : (uuidFromBytes b).length = 36 := by
  simp [uuidFromBytes, byteHex]

theorem firstSeg_makeFilename (id name : JStr) (h : '.' ∉ id) :
    firstSeg (makeFilename id name) = id := by
  have hres := firstSegOn_append_sep '.' id (lastSeg name) h
  simpa [makeFilename, firstSeg, List.append_assoc] using hres

theorem uploadRoute_always_default (baseUrl : Option JStr) (st : Storage)
    (id : JStr) (f : Option UploadedFile) :
    uploadRoute baseUrl st id f
      = (.err 500 "Internal Server Error".toList, st) := by
  unfold uploadRoute
  cases f with
  | none => rfl
  | some file =>
    dsimp only
    cases multerProcessFile file <;> rfl

theorem uploadMultipleRoute_always_default (baseUrl : Option JStr)
    (st : Storage) (ids : List JStr) (files : List UploadedFile) :
    uploadMultipleRoute baseUrl st ids files
      = (.err 500 "Internal Server Error".toList, st) := by
  unfold uploadMultipleRoute
  cases multerArray 10 files <;> rfl

/-- C2 counterexample: the validator accepts a file whose extension apng
    is not one of the five allowed extensions, because the regex test is a
    substring test; it also accepts a png extension paired with a gif
    content type, so the two checks are not matched as one family; and a
    file failing the checks is not rejected with a validation error: the
    route answers the Express default 500, the three-parameter
    handleUploadError never handling the multer error. -/
theorem fileFilter_accepts_non_exact_extension :
    fileFilter apngFile = true ∧
    toLowerStr (lastSeg apngFile.originalname) ∉ allowedTokens ∧
    fileFilter ⟨"a.png".toList, "image/gif".toList, 3, []⟩ = true ∧
    uploadRoute none [] "u".toList (some txtFile)
      = (.err 500 "Internal Server Error".toList, []) := by decide

/-- C2 amended: the validator accepts iff the lowercased final dot-segment
    of the filename contains one of the five tokens as a substring and the
    declared content-type contains one of the five tokens as a substring,
    with no family matching between the two; no client-visible validation
    error exists, though: every upload request, rejected or accepted, is
    answered with the Express default 500, because the three-parameter
    handleUploadError is skipped on error and throws as regular
    middleware, and no object is ever persisted through the route. -/
theorem fileFilter_spec (f : UploadedFile) (baseUrl : Option JStr)
    (st : Storage) (id : JStr) :
    (fileFilter f = true ↔
      (∃ t ∈ allowedTokens, ∃ pre post,
        toLowerStr (lastSeg f.originalname) = pre ++ t ++ post) ∧
      (∃ t ∈ allowedTokens, ∃ pre post, f.mimetype = pre ++ t ++ post)) ∧
    uploadRoute baseUrl st id (some f)
      = (.err 500 "Internal Server Error".toList, st) := by
  constructor
  · simp [fileFilter, Bool.and_eq_true, allowedTest_iff]
  · exact uploadRoute_always_default baseUrl st id (some f)

/-- C7 counterexample: an oversized file of a valid image type is not
    rejected with the size-specific too-large error: it receives the
    Express default 500, the very response an unsupported-type file also
    receives, so the two rejection kinds are not distinguishable by the
    caller. -/
theorem oversized_file_gets_default_500 :
    fileSizeLimit < bigPng.size ∧
    uploadRoute none [] "u".toList (some bigPng)
      = (.err 500 "Internal Server Error".toList, []) ∧
    uploadRoute none [] "u".toList (some txtFile)
      = (.err 500 "Internal Server Error".toList, []) := by decide

/-- C7 amended: every file larger than 10 MiB is stopped inside multer, so
    no storage write occurs, but the client receives the Express default
    500 rather than the size-specific error; for a type-valid oversized
    file the internal multer error is the LIMIT_FILE_SIZE error, whose
    mapping in handleUploadError is dead code, so the rejection is not
    distinguishable from the unsupported-type one. -/
theorem size_limit_spec (f : UploadedFile) (baseUrl : Option JStr)
    (st : Storage) (id : JStr) (hsz : fileSizeLimit < f.size) :
    multerProcessFile f ≠ none ∧
    uploadRoute baseUrl st id (some f)
      = (.err 500 "Internal Server Error".toList, st) ∧
    (fileFilter f = true → multerProcessFile f = some fileSizeError) := by
  refine ⟨?_, uploadRoute_always_default baseUrl st id (some f), ?_⟩
  · by_cases hf : fileFilter f = false
    · simp [multerProcessFile, hf]
    · simp [multerProcessFile, hf, hsz]
  · intro hty
    simp [multerProcessFile, hty, hsz]

theorem size_limit_spec_witness :
    multerProcessFile bigPng ≠ none ∧
    uploadRoute none [] "u".toList (some bigPng)
      = (.err 500 "Internal Server Error".toList, []) ∧
    (fileFilter bigPng = true → multerProcessFile bigPng = some fileSizeError) :=
  size_limit_spec bigPng none [] "u".toList (by decide)


/-- C8: every storage key the Object Namer produces from a random UUID and
    any original filename, names with several dots or none included, has
    the form id, dot, final dot-segment of the original name; the id is 36
    characters of the 128-bit UUID class and contains no dot; and the id is
    recoverable as the key prefix up to but not including the first dot,
    the invariant the images listing and the delete route rely on. -/
theorem objectNamer_key_invariant (b : Fin 16 → Nat) (name : JStr) :
    '.' ∉ uuidFromBytes b ∧
    (uuidFromBytes b).length = 36 ∧
    makeFilename (uuidFromBytes b) name = uuidFromBytes b ++ '.' :: lastSeg name ∧
    firstSeg (makeFilename (uuidFromBytes b) name) = uuidFromBytes b :=
  ⟨dot_not_mem_uuid b, uuid_length b, by simp [makeFilename],
    firstSeg_makeFilename _ _ (dot_not_mem_uuid b)⟩

/-- C4: a token issued for a subject verifies to that same subject at any
    time before the one-hour expiry, in particular at 59 minutes; it is
    rejected at or after one hour, in particular at 61 minutes; and a
    token checked under a wrong secret or a malformed token is rejected. -/
theorem token_roundtrip_and_expiry (secret secret' : JStr) (uid T d1 d2 t : Nat)
    (h1 : d1 < 3600) (h2 : 3600 ≤ d2) (h3 : secret' ≠ secret) :
    jwtVerify secret (T + d1) (jwtSign secret uid T) = some uid ∧
    jwtVerify secret (T + d2) (jwtSign secret uid T) = none ∧
    jwtVerify secret' t (jwtSign secret uid T) = none ∧
    jwtVerify secret t Jwt.malformed = none ∧
    jwtVerify secret (T + 59 * 60) (jwtSign secret uid T) = some uid ∧
    jwtVerify secret (T + 61 * 60) (jwtSign secret uid T) = none := by
  have hb : (secret == secret') = false :=
    beq_eq_false_iff_ne.mpr (fun hh => h3 hh.symm)
  have hn1 : ¬ (T + 3600 ≤ T + d1) := by omega
  have hn2 : T + 3600 ≤ T + d2 := by omega
  have hn3 : ¬ (T + 3600 ≤ T + 59 * 60) := by omega
  have hn4 : T + 3600 ≤ T + 61 * 60 := by omega
  refine ⟨?_, ?_, ?_, rfl, ?_, ?_⟩ <;>
    simp [jwtVerify, jwtSign, hb, hn1, hn2, hn3, hn4]

theorem token_roundtrip_witness :
    jwtVerify "s".toList (1000 + 59 * 60) (jwtSign "s".toList 7 1000) = some 7 ∧
    jwtVerify "s".toList (1000 + 61 * 60) (jwtSign "s".toList 7 1000) = none :=
  ⟨(token_roundtrip_and_expiry "s".toList "x".toList 7 1000 0 3600 0
      (by decide) (by decide) (by decide)).2.2.2.2.1,
   (token_roundtrip_and_expiry "s".toList "x".toList 7 1000 0 3600 0
      (by decide) (by decide) (by decide)).2.2.2.2.2⟩

/-- C1: the 201 register response does contain a password field. On every
    successful registration the user object of the response carries the
    stored bcrypt hash in its password column, because the handler answers
    with the full inserted row that select() returns. -/
theorem register_response_contains_password_hash
    (db : UsersTable) (bcryptHash : JStr → JStr) (newId : Nat)
    (email username full_name role password : Option JStr)
    (s : Nat) (m : JStr) (u : UserRow) (db' : UsersTable)
    (h : register db bcryptHash newId email username full_name role password
         = (.created s m u, db')) :
    s = 201 ∧ u.password = some (bcryptHash (password.getD [])) := by
  unfold register at h
  split at h
  · simp at h
  · cases hfind : List.find? (fun v => v.email == email.getD []) db with
    | some v => rw [hfind] at h; simp at h
    | none =>
      rw [hfind] at h
      simp only [Prod.mk.injEq, RegisterResp.created.injEq] at h
      obtain ⟨⟨hs, _, hu⟩, _⟩ := h
      exact ⟨hs.symm, by rw [← hu]⟩

theorem register_response_contains_password_hash_witness :
    (201 : Nat) = 201 ∧ demoRow.password = some (demoHash "p".toList) :=
  register_response_contains_password_hash [] demoHash 1 (some "a@x.com".toList)
    none none none (some "p".toList) 201 "User created".toList demoRow [demoRow]
    (by decide)

/-- C9 counterexample: serving a stored png object answers 200 with the
    bytes but a Content-Type of image/jpeg that does not reflect the
    object, and with no cache header. -/
theorem fileRoute_hardcodes_jpeg_and_no_cache :
    fileRoute [pngObj] "ab.png".toList = .ok "image/jpeg".toList none [9, 9] ∧
    "image/jpeg".toList ≠ pngObj.contentType := by decide

/-- C9 amended: a request for a missing key answers 404 not found, and a
    request for a stored key answers 200 with the object bytes, a constant
    Content-Type of image/jpeg whatever the object type, and no cache
    header. -/
theorem fileRoute_spec (st : Storage) (fn : JStr) :
    (st.find? (fun o => o.name == fn) = none →
      fileRoute st fn = .notFound 404 "File not found".toList) ∧
    (∀ o, st.find? (fun o => o.name == fn) = some o →
      fileRoute st fn = .ok "image/jpeg".toList none o.bytes) := by
  constructor
  · intro h; simp [fileRoute, h]
  · intro o h; simp [fileRoute, h]

theorem fileRoute_spec_witness :
    fileRoute [pngObj] "zz".toList = .notFound 404 "File not found".toList :=
  (fileRoute_spec [pngObj] "zz".toList).1 (by decide)

/-- C3 counterexample: a login against an account whose stored hash is
    missing answers 500 with a dedicated message, distinguishable from the
    uniform 401 rejection an unknown email receives, so the three failure
    cases are not all identical. -/
theorem login_unusable_hash_distinct :
    login [noHashUser] (fun a b => a == b) "s".toList 0
      (some "a@x.com".toList) (some "p".toList)
      = ⟨500, "Password not set correctly for this user.".toList, none⟩ ∧
    login [] (fun a b => a == b) "s".toList 0
      (some "a@x.com".toList) (some "p".toList)
      = ⟨401, "Invalid email or password".toList, none⟩ ∧
    (⟨500, "Password not set correctly for this user.".toList, none⟩ : LoginResp)
      ≠ ⟨401, "Invalid email or password".toList, none⟩ := by decide

/-- C3 amended: the unknown-email case and the failed-comparison case get
    the identical 401 InvalidCredentials response; the missing or empty
    stored-hash case gets a distinct 500 response; and a successful login
    issues a one-hour token bound to the account id whose verification
    before expiry yields that id. -/
theorem login_spec (db : UsersTable) (cmp : JStr → JStr → Bool)
    (secret : JStr) (now later : Nat) (e pw : JStr)
    (he : e ≠ []) (hpw : pw ≠ []) :
    (db.find? (fun u => u.email == e) = none →
      login db cmp secret now (some e) (some pw)
        = ⟨401, "Invalid email or password".toList, none⟩) ∧
    (∀ u, db.find? (fun u => u.email == e) = some u →
      ((u.password = none ∨ u.password = some []) →
        login db cmp secret now (some e) (some pw)
          = ⟨500, "Password not set correctly for this user.".toList, none⟩) ∧
      (∀ h, u.password = some h → h ≠ [] → cmp pw h = false →
        login db cmp secret now (some e) (some pw)
          = ⟨401, "Invalid email or password".toList, none⟩) ∧
      (∀ h, u.password = some h → h ≠ [] → cmp pw h = true →
        login db cmp secret now (some e) (some pw)
          = ⟨200, [], some (jwtSign secret u.id now)⟩ ∧
        (later < now + 3600 →
          jwtVerify secret later (jwtSign secret u.id now) = some u.id))) := by
  have htr : (!(jsTruthy (some e) && jsTruthy (some pw))) = false := by
    simp [jsTruthy]
    exact ⟨he, hpw⟩
  refine ⟨?_, ?_⟩
  · intro hfind
    simp [login, htr, hfind]
  · intro u hfind
    refine ⟨?_, ?_, ?_⟩
    · intro hp
      rcases hp with hp | hp
      · simp [login, htr, hfind, hp]
      · simp [login, htr, hfind, hp]
    · intro hstr hp hne hcmp
      simp [login, htr, hfind, hp, hne, hcmp]
    · intro hstr hp hne hcmp
      constructor
      · simp [login, htr, hfind, hp, hne, hcmp]
      · intro hl
        have hexp : ¬ (now + 3600 ≤ later) := by omega
        simp [jwtVerify, jwtSign, hexp]

theorem login_spec_witness :
    login [hashUser] (fun a b => a == b) "s".toList 10
      (some "b@x.com".toList) (some "HHq".toList)
      = ⟨200, [], some (jwtSign "s".toList 2 10)⟩ :=
  (((login_spec [hashUser] (fun a b => a == b) "s".toList 10 0
      "b@x.com".toList "HHq".toList (by decide) (by decide)).2 hashUser
      (by decide)).2.2 "HHq".toList rfl (by decide) (by decide)).1

theorem deleteRoute_none_of_no_prefix (st : Storage) (id : JStr)
    (hnone : ∀ o ∈ st, lstartsWith (id ++ ['.']) o.name = false) :
    deleteRoute st id = (none, st) := by
  have hfind : (supabaseSearchList st id).find?
      (fun o => lstartsWith (id ++ ['.']) o.name) = none := by
    apply List.find?_eq_none.mpr
    intro o ho
    have hom : o ∈ st := (List.mem_filter.mp (List.mem_of_mem_take ho)).1
    simp [hnone o hom]
  unfold deleteRoute
  rw [hfind]

/-- C5: the delete route selects among the backend search results the
    first entry whose key starts with the id followed by a dot, an exact
    prefix match; when none matches it answers NotFound and deletes
    nothing; on a match it deletes exactly that key, a second call on the
    same id then answers NotFound, and a later image listing never carries
    that id. The two hypotheses are the Object Namer invariants of the
    store: every key carrying this id has the dotted form, and at most one
    stored key carries the exact dotted prefix. -/
theorem deleteRoute_spec (st : Storage) (id : JStr)
    (hform : ∀ o ∈ st, firstSeg o.name = id →
      lstartsWith (id ++ ['.']) o.name = true)
    (huniq : ∀ o1 ∈ st, ∀ o2 ∈ st, lstartsWith (id ++ ['.']) o1.name = true →
      lstartsWith (id ++ ['.']) o2.name = true → o1.name = o2.name) :
    ((∀ o ∈ st, lstartsWith (id ++ ['.']) o.name = false) →
      deleteRoute st id = (none, st)) ∧
    (∀ nm st', deleteRoute st id = (some nm, st') →
      lstartsWith (id ++ ['.']) nm = true ∧
      (∃ o ∈ st, o.name = nm) ∧
      st' = st.filter (fun e => !(e.name == nm)) ∧
      deleteRoute st' id = (none, st') ∧
      ∀ e ∈ imagesRoute st', e.id ≠ id) := by
  constructor
  · exact deleteRoute_none_of_no_prefix st id
  · intro nm st' h
    unfold deleteRoute at h
    cases hfind : (supabaseSearchList st id).find?
        (fun o => lstartsWith (id ++ ['.']) o.name) with
    | none => rw [hfind] at h; simp at h
    | some o0 =>
      rw [hfind] at h
      simp only [Prod.mk.injEq, Option.some.injEq] at h
      obtain ⟨hnm, hst⟩ := h
      subst hnm
      subst hst
      have hpre : lstartsWith (id ++ ['.']) o0.name = true := by
        have hp := List.find?_some hfind
        exact hp
      have ho0st : o0 ∈ st :=
        (List.mem_filter.mp (List.mem_of_mem_take
          (List.mem_of_find?_eq_some hfind))).1
      have hnoprefix : ∀ o ∈ st.filter (fun e => !(e.name == o0.name)),
          lstartsWith (id ++ ['.']) o.name = false := by
        intro o ho
        obtain ⟨homem, hneq⟩ := List.mem_filter.mp ho
        cases hb : lstartsWith (id ++ ['.']) o.name with
        | false => rfl
        | true =>
          have heqn := huniq o homem o0 ho0st hb hpre
          simp [heqn] at hneq
      refine ⟨hpre, ⟨o0, ho0st, rfl⟩, rfl,
        deleteRoute_none_of_no_prefix _ id hnoprefix, ?_⟩
      intro e he
      obtain ⟨o, ho, heq⟩ := List.mem_map.mp he
      obtain ⟨hot, _⟩ := List.mem_filter.mp ho
      obtain ⟨host, hneq⟩ := List.mem_filter.mp (List.mem_of_mem_take hot)
      intro hid
      have hfs : firstSeg o.name = id := by rw [← heq] at hid; exact hid
      have hpre2 := hform o host hfs
      have heqn := huniq o host o0 ho0st hpre2 hpre
      simp [heqn] at hneq

theorem deleteRoute_spec_witness :
    deleteRoute [objA, objB] "ab".toList = (some "ab.png".toList, [objB]) ∧
    deleteRoute [objB] "ab".toList = (none, [objB]) :=
  ⟨by decide,
   ((deleteRoute_spec [objA, objB] "ab".toList (by decide) (by decide)).2
      "ab.png".toList [objB] (by decide)).2.2.2.1⟩

theorem multerArrayGo_ne_none (maxCount : Nat) (files : List UploadedFile) :
    ∀ acc, acc ≤ maxCount → maxCount < acc + files.length →
      multerArrayGo maxCount acc files ≠ none := by
  induction files with
  | nil =>
    intro acc hle hlt
    exact absurd hle (Nat.not_le.mpr (by simpa using hlt))
  | cons f rest ih =>
    intro acc hle hlt
    by_cases hc : maxCount ≤ acc
    · unfold multerArrayGo
      rw [if_pos hc]
      simp
    · unfold multerArrayGo
      rw [if_neg hc]
      cases hmp : multerProcessFile f with
      | some e => simp
      | none =>
        exact ih (acc + 1) (by omega)
          (by simp only [List.length_cons] at hlt; omega)

/-- C6 counterexample: a batch of eleven valid files is aborted inside
    multer before any upload attempt, but the client receives the Express
    default 500, not a TooManyFiles rejection; a valid two-file batch
    receives the identical default 500 instead of a success response, so
    the batch route distinguishes nothing and stores nothing. -/
theorem eleven_files_default_500 :
    uploadMultipleRoute none [] (List.replicate 11 "u".toList)
      (List.replicate 11 smallPng)
      = (.err 500 "Internal Server Error".toList, []) ∧
    uploadMultipleRoute none [] ["u".toList, "v".toList] [smallPng, smallPng]
      = (.err 500 "Internal Server Error".toList, []) := by decide

/-- C6 amended: a batch of more than ten files is aborted inside multer
    before any upload attempt, but like every other batch request, valid
    or invalid, within the limit or not, it is answered with the Express
    default 500 and zero objects are persisted: the multer errors bypass
    the three-parameter handleUploadError, the accepted path throws
    inside it as regular middleware, and neither a TooManyFiles error nor
    a successful batch response exists. -/
theorem storeBatch_spec (baseUrl : Option JStr) (st : Storage)
    (ids : List JStr) (files : List UploadedFile) :
    uploadMultipleRoute baseUrl st ids files
      = (.err 500 "Internal Server Error".toList, st) ∧
    (10 < files.length → multerArray 10 files ≠ none) ∧
    (∀ e, dispatchUploadError e = expressDefault500) := by
  refine ⟨uploadMultipleRoute_always_default baseUrl st ids files, ?_,
    fun e => rfl⟩
  intro hlen
  exact multerArrayGo_ne_none 10 files 0 (by omega) (by omega)

theorem storeBatch_spec_witness :
    multerArray 10 (List.replicate 11 smallPng) ≠ none :=
  (storeBatch_spec none [] (List.replicate 11 "u".toList)
    (List.replicate 11 smallPng)).2.1 (by decide)

/-- C10: contrary to the claim, no upload response ever carries a url
    field: every request to the single and the batch upload route is
    answered by the Express default 500 with storage unchanged, whatever
    BASE_URL holds, because the three-parameter handleUploadError is
    skipped as error middleware and throws as regular middleware; the
    BASE_URL versus public-url selection of the handlers, chooseUrl, is
    dead code. -/
theorem upload_routes_never_succeed (baseUrl : Option JStr) (st : Storage)
    (id : JStr) (f : Option UploadedFile) (ids : List JStr)
    (files : List UploadedFile) :
    uploadRoute baseUrl st id f
      = (.err 500 "Internal Server Error".toList, st) ∧
    uploadMultipleRoute baseUrl st ids files
      = (.err 500 "Internal Server Error".toList, st) :=
  ⟨uploadRoute_always_default baseUrl st id f,
   uploadMultipleRoute_always_default baseUrl st ids files⟩
